import Mathlib

/-!
Verification of the ONNX quantized-convolution import core
(src/ngraph/frontend/onnx_import/op/quant_conv.cpp).

The development shallowly embeds the two functions of that file,
`make_ng_quant_conv` and `quant_conv`, over an explicit graph-node datatype.
Graph nodes produced by the external graph-construction builders
(`Slice`, `Concat`, `QuantizedLinearConvolution`,
`QuantizedLinearConvolutionBias`, the zero-point-taking overload of
`QuantizedLinearConvolution`) are represented symbolically as constructors,
so that the theorems can inspect exactly which primitive calls were emitted
and with which arguments.
-/

namespace QuantConvSpec

/-- Tensor element types; only `u8` is ever inspected by the core
(the fast-path eligibility test `filters->get_element_type() == element::u8`). -/
inductive ElemType where
  | u8
  | i8
  | f32
  | other
deriving DecidableEq, Repr

/-- A graph node.  `tensor` stands for an upstream node handed to the importer
(an operator input), carrying the shape and element type that the core
queries through `get_shape()` / `get_element_type()`, and a null flag
(ngraph's `NullNode`, queried through `is_null()`).  The remaining
constructors record, argument for argument, the node-building calls that
quant_conv.cpp performs: `ngraph::op::Slice`, `ngraph::op::Concat`, and the
three quantization builder entry points. -/
inductive GNode where
  | tensor (id : Nat) (shape : List Nat) (etype : ElemType) (null : Bool)
  | slice (arg : GNode) (lowerBounds upperBounds : List Nat)
  | quantizedLinearConvolution (data filters : GNode)
      (strides filterDilations : List Nat)
      (paddingBelow paddingAbove : List Int)
      (dataDilations : List Nat)
      (dataScale filterScale outputScale : GNode)
  | quantizedLinearConvolutionZp (data filters : GNode)
      (strides filterDilations : List Nat)
      (paddingBelow paddingAbove : List Int)
      (dataDilations : List Nat)
      (dataScale dataZeroPoint filterScale filterZeroPoint
       outputScale outputZeroPoint : GNode)
  | quantizedLinearConvolutionBias (data filters bias : GNode)
      (strides filterDilations : List Nat)
      (paddingBelow paddingAbove : List Int)
      (dataDilations : List Nat)
      (dataScale filterScale outputScale : GNode)
  | concat (args : List GNode) (axis : Nat)

/-- Placeholder used for out-of-range positional accesses.  The importer
guarantees 8 or 9 positional inputs (spec section 6), so the theorems never
depend on this value. -/
def defaultNode : GNode := GNode.tensor 0 [] ElemType.other true

/-- `is_null()`: in ngraph only a `NullNode` (a placeholder input) is null;
nodes built by this core never are. -/
def isNull : GNode → Bool
  | GNode.tensor _ _ _ null => null
  | _ => false

/-- `get_element_type()`.  The core only ever queries the element type of the
filter operand, which is an operator input (`tensor`); element types of
built nodes come from the external builders' type inference, which this
embedding does not model. -/
def etypeOf : GNode → ElemType
  | GNode.tensor _ _ et _ => et
  | _ => ElemType.other

/-- Modelled from the spec: the spatial extents of a convolution output come
from the external graph-construction library's shape inference (spec
section 4.3 only guarantees they match a single non-grouped convolution).
The standard dilated-padded-strided window-count formula is used; no claim
depends on these entries, only on the two leading (batch/channel) entries
of `getShape`. -/
def convOutSpatial (dataDims filterDims strides fdil : List Nat)
    (pb pa : List Int) (ddil : List Nat) : List Nat :=
  (List.zip dataDims (List.zip filterDims (List.zip strides
      (List.zip fdil (List.zip pb (List.zip pa ddil)))))).map fun x =>
    let d : Int := x.1
    let k : Int := x.2.1
    let s : Int := x.2.2.1
    let fd : Int := x.2.2.2.1
    let below : Int := x.2.2.2.2.1
    let above : Int := x.2.2.2.2.2.1
    let dd : Int := x.2.2.2.2.2.2
    (((d - 1) * dd + 1 + below + above - ((k - 1) * fd + 1)) / s + 1).toNat

mutual

/-- `get_shape()`.  Operator inputs carry their shape; `Slice` produces
`upper - lower` elementwise; the convolution builders produce
`[batch, output-channels] ++ spatial`; `Concat` sums the concatenation
axis over its arguments and keeps the other dimensions of the first. -/
def getShape : GNode → List Nat
  | GNode.tensor _ shape _ _ => shape
  | GNode.slice _ lowerBounds upperBounds =>
      List.zipWith (fun u l => u - l) upperBounds lowerBounds
  | GNode.quantizedLinearConvolution data filters strides fdil pb pa ddil _ _ _ =>
      (getShape data).headD 0 :: (getShape filters).headD 0 ::
        convOutSpatial ((getShape data).drop 2) ((getShape filters).drop 2)
          strides fdil pb pa ddil
  | GNode.quantizedLinearConvolutionZp data filters strides fdil pb pa ddil
      _ _ _ _ _ _ =>
      (getShape data).headD 0 :: (getShape filters).headD 0 ::
        convOutSpatial ((getShape data).drop 2) ((getShape filters).drop 2)
          strides fdil pb pa ddil
  | GNode.quantizedLinearConvolutionBias data filters _ strides fdil pb pa ddil
      _ _ _ =>
      (getShape data).headD 0 :: (getShape filters).headD 0 ::
        convOutSpatial ((getShape data).drop 2) ((getShape filters).drop 2)
          strides fdil pb pa ddil
  | GNode.concat args axis =>
      (shapesOf args).headD [] |>.set axis
        ((shapesOf args).map (fun s => s.getD axis 0)).sum

/-- Shapes of a list of nodes (structural helper for `getShape` at `concat`). -/
def shapesOf : List GNode → List (List Nat)
  | [] => []
  | n :: rest => getShape n :: shapesOf rest

end

/-- The channel-axis extent (dimension 1), the only dimension this core
reasons about (spec section 3). -/
def channelCount (n : GNode) : Nat := (getShape n).getD 1 0

/-- The `OpScale` aggregate of quant_conv.cpp. -/
structure OpScale where
  data_scale : GNode
  filter_scale : GNode
  output_scale : GNode

/-- The errors the core can raise, each recording the values actually
streamed into its message:
the group-attribute bounds assertion streams the offending `groups`
("incorrect value of 'group' attribute: " << groups); the two divisibility
assertions stream fixed message text only; the bias-with-groups rejection
is thrown as `error::NotSupported`. -/
inductive QCError where
  | invalidGroupAttribute (groups : Int)
  | dataChannelsIndivisible
  | filtersChannelsIndivisible
  | notSupportedBiasWithGroups
deriving DecidableEq, Repr

/-- Validation errors are those raised through `ASSERT_VALID_ARGUMENT`;
the bias-with-groups rejection is an `error::NotSupported`, a different
error kind (spec section 7 taxonomy). -/
def isValidationError : QCError → Bool
  | QCError.notSupportedBiasWithGroups => false
  | _ => true

/-- The offending values an error's message carries (the values streamed
into it in the source). -/
def carriedValues : QCError → List Int
  | QCError.invalidGroupAttribute groups => [groups]
  | _ => []

/-- The interchange operator as seen through the import layer's accessors
(spec section 6): the positional input list, the `group` attribute
(`get_attribute_value<int64_t>("group", 1)` — `none` models an absent
attribute, defaulted to 1), and the attribute-derived geometry sequences
returned by the external `convpool` accessors (`get_strides`,
`get_dilations`, `get_kernel_shape`, `get_pads`), modelled as opaque
fields since their derivation is outside this core. -/
structure QNode where
  inputs : List GNode
  group_attr : Option Int
  strides : List Nat
  dilations : List Nat
  kernel_shape : List Nat
  padding_below : List Int
  padding_above : List Int

/-- `make_ng_quant_conv` of quant_conv.cpp.  For `groups > 1` the C++ loop
slices data and filters for each group and throws `error::NotSupported`
inside its first iteration when a bias is present (the loop body runs at
least once since `groups > 1`); the thrown-before-emitting-anything control
flow is modelled by the bias test guarding the whole loop. -/
def make_ng_quant_conv (data filters : GNode)
    (strides filter_dilations : List Nat)
    (padding_below padding_above : List Int)
    (data_dilations : List Nat)
    (groups : Int) (op_scale : OpScale)
    (bias : Option GNode := none) : Except QCError GNode :=
  if 1 < groups then
    let n_data_channels := (getShape data).getD 1 0
    let n_filters_channels := (getShape filters).getD 0 0
    let data_group_size := n_data_channels / groups.toNat
    let filters_group_size := n_filters_channels / groups.toNat
    if bias.isSome then
      Except.error QCError.notSupportedBiasWithGroups
    else
      let convolution_nodes := (List.range groups.toNat).map fun group =>
        let data_lower_bounds :=
          (List.replicate (getShape data).length 0).set 1 (group * data_group_size)
        let data_upper_bounds :=
          (getShape data).set 1 ((group + 1) * data_group_size)
        let sliced_data := GNode.slice data data_lower_bounds data_upper_bounds
        let filters_lower_bounds :=
          (List.replicate (getShape filters).length 0).set 0
            (group * filters_group_size)
        let filters_upper_bounds :=
          (getShape filters).set 0 ((group + 1) * filters_group_size)
        let sliced_filters :=
          GNode.slice filters filters_lower_bounds filters_upper_bounds
        GNode.quantizedLinearConvolution sliced_data sliced_filters
          strides filter_dilations padding_below padding_above data_dilations
          op_scale.data_scale op_scale.filter_scale op_scale.output_scale
      Except.ok (GNode.concat convolution_nodes 1)
  else
    match bias with
    | some b =>
        Except.ok (GNode.quantizedLinearConvolutionBias data filters b
          strides filter_dilations padding_below padding_above data_dilations
          op_scale.data_scale op_scale.filter_scale op_scale.output_scale)
    | none =>
        Except.ok (GNode.quantizedLinearConvolution data filters
          strides filter_dilations padding_below padding_above data_dilations
          op_scale.data_scale op_scale.filter_scale op_scale.output_scale)

/-- `quant_conv` of quant_conv.cpp.  The two `ASSERT_VALID_ARGUMENT`
failures become validation errors; note that the C++ bounds assertion
checks `groups >= 0` (not `>= 1`), and that when `groups = 0` the
subsequent `n_data_channels % groups` divides by zero (undefined behaviour
in C++; `Nat.mod` gives `n % 0 = n`). -/
def quant_conv (node : QNode) : Except QCError (List GNode) :=
  let inputs := node.inputs
  let data := inputs.getD 0 defaultNode
  let filters := inputs.getD 3 defaultNode
  let groups : Int := node.group_attr.getD 1
  let data_scale := inputs.getD 1 defaultNode
  let filters_scale := inputs.getD 4 defaultNode
  let output_scale := inputs.getD 6 defaultNode
  if ¬ (0 ≤ groups ∧ groups ≤ ((getShape data).getD 1 0 : Int) ∧
        groups ≤ ((getShape filters).getD 0 0 : Int)) then
    Except.error (QCError.invalidGroupAttribute groups)
  else
    let n_data_channels := (getShape data).getD 1 0
    let n_filters_channels := (getShape filters).getD 0 0
    if ¬ (n_data_channels % groups.toNat = 0) then
      Except.error QCError.dataChannelsIndivisible
    else if ¬ (n_filters_channels % groups.toNat = 0) then
      Except.error QCError.filtersChannelsIndivisible
    else
      let strides := node.strides
      let filter_dilations := node.dilations
      let data_dilations := List.replicate node.kernel_shape.length 1
      let padding_below := node.padding_below
      let padding_above := node.padding_above
      if inputs.length = 9 ∧ isNull (inputs.getD 8 defaultNode) = false then
        let bias := inputs.getD 8 defaultNode
        (make_ng_quant_conv data filters strides filter_dilations
          padding_below padding_above data_dilations groups
          ⟨data_scale, filters_scale, output_scale⟩ (some bias)).map
          fun n => [n]
      else
        if etypeOf filters = ElemType.u8 ∧ groups = 1 then
          Except.ok [GNode.quantizedLinearConvolutionZp data filters
            strides filter_dilations padding_below padding_above data_dilations
            data_scale (inputs.getD 2 defaultNode)
            filters_scale (inputs.getD 5 defaultNode)
            output_scale (inputs.getD 7 defaultNode)]
        else
          (make_ng_quant_conv data filters strides filter_dilations
            padding_below padding_above data_dilations groups
            ⟨data_scale, filters_scale, output_scale⟩ none).map
            fun n => [n]

/-- Whether a bias operand is present: 9 positional inputs whose 9th is not
null (the test at the top of the dispatch in `quant_conv`). -/
def biasPresent (node : QNode) : Bool :=
  node.inputs.length == 9 && !(isNull (node.inputs.getD 8 defaultNode))

/-- The four dispatch leaves of the decision tree (spec section 4.4):
the grouped decomposition path (which itself rejects a bias with
`NotSupported`), the zero-point-taking fast path, the bias-fused single
call, and the plain single call. -/
inductive Leaf where
  | groupAssembler
  | fastPath
  | biasFused
  | plain
deriving DecidableEq, Repr

/-- The dispatch decision over `(group count, bias presence, filter element
type)` as the code implements it: the bias test comes first, so a present
bias reaches the bias-fused leaf (or the grouped rejection) even when the
filter precision would qualify for the fast path. -/
def dispatchTable (groups : Int) (bias : Bool) (filterType : ElemType) : Leaf :=
  if bias then
    if 1 < groups then Leaf.groupAssembler else Leaf.biasFused
  else if filterType = ElemType.u8 ∧ groups = 1 then Leaf.fastPath
  else if 1 < groups then Leaf.groupAssembler else Leaf.plain

/-- Which leaf a returned root node was produced by, read off from the
node-building call that produced it. -/
def leafOfRoot : GNode → Option Leaf
  | GNode.concat _ _ => some Leaf.groupAssembler
  | GNode.quantizedLinearConvolutionZp _ _ _ _ _ _ _ _ _ _ _ _ _ =>
      some Leaf.fastPath
  | GNode.quantizedLinearConvolutionBias _ _ _ _ _ _ _ _ _ _ _ =>
      some Leaf.biasFused
  | GNode.quantizedLinearConvolution _ _ _ _ _ _ _ _ _ _ =>
      some Leaf.plain
  | _ => none

/-- Which dispatch leaf executed, given a conversion outcome: the
`NotSupported` throw happens inside the grouped decomposition leaf, a
successful conversion is classified by the root node it built, and a
validation failure means dispatch was never reached. -/
def executedLeaf : Except QCError (List GNode) → Option Leaf
  | Except.error QCError.notSupportedBiasWithGroups => some Leaf.groupAssembler
  | Except.error _ => none
  | Except.ok [n] => leafOfRoot n
  | Except.ok _ => none

/-- The data-channel slice bounds (dimension 1 of the `Slice` bounds) of a
per-group convolution node. -/
def dataSliceBounds : GNode → Nat × Nat
  | GNode.quantizedLinearConvolution (GNode.slice _ lo hi) _ _ _ _ _ _ _ _ _ =>
      (lo.getD 1 0, hi.getD 1 0)
  | _ => (0, 0)

/-- The filter output-channel slice bounds (dimension 0 of the `Slice`
bounds) of a per-group convolution node. -/
def filterSliceBounds : GNode → Nat × Nat
  | GNode.quantizedLinearConvolution _ (GNode.slice _ lo hi) _ _ _ _ _ _ _ _ =>
      (lo.getD 0 0, hi.getD 0 0)
  | _ => (0, 0)

/-- The scale arguments handed to a primitive emission (for the calls that
take scales without zero points). -/
def scaleArgsOf : GNode → Option (GNode × GNode × GNode)
  | GNode.quantizedLinearConvolution _ _ _ _ _ _ _ ds fs os => some (ds, fs, os)
  | GNode.quantizedLinearConvolutionBias _ _ _ _ _ _ _ _ ds fs os =>
      some (ds, fs, os)
  | _ => none

/-- The data-dilation argument handed to a primitive emission. -/
def dataDilationArg : GNode → Option (List Nat)
  | GNode.quantizedLinearConvolution _ _ _ _ _ _ dd _ _ _ => some dd
  | GNode.quantizedLinearConvolutionZp _ _ _ _ _ _ dd _ _ _ _ _ _ => some dd
  | GNode.quantizedLinearConvolutionBias _ _ _ _ _ _ _ dd _ _ _ => some dd
  | _ => none

/-- The primitive calls emitted for a returned root node: the children of
the assembling concatenation on the decomposition path, the root itself on
the single-call paths. -/
def emittedPrimitives : GNode → List GNode
  | GNode.concat args _ => args
  | n => [n]

/-- Mirrors the control flow of `quant_conv`: true exactly when the first
assertion (the `groups >= 0` bounds check) passes, i.e. exactly when
execution goes on to evaluate `n_data_channels % groups` — a division by
zero in C++ when `groups = 0`. -/
def reachesDivisibilityChecks (node : QNode) : Bool :=
  let data := node.inputs.getD 0 defaultNode
  let filters := node.inputs.getD 3 defaultNode
  let groups : Int := node.group_attr.getD 1
  decide (0 ≤ groups ∧ groups ≤ ((getShape data).getD 1 0 : Int) ∧
    groups ≤ ((getShape filters).getD 0 0 : Int))

/-- The per-group convolution node emitted by the decomposition path for
group index `group` (spelled out; `quant_conv_grouped_eq` proves the
conversion returns the concatenation of exactly these). -/
def groupConvNode (node : QNode) (group : Nat) : GNode :=
  let data := node.inputs.getD 0 defaultNode
  let filters := node.inputs.getD 3 defaultNode
  let g := (node.group_attr.getD 1).toNat
  let data_group_size := (getShape data).getD 1 0 / g
  let filters_group_size := (getShape filters).getD 0 0 / g
  GNode.quantizedLinearConvolution
    (GNode.slice data
      ((List.replicate (getShape data).length 0).set 1 (group * data_group_size))
      ((getShape data).set 1 ((group + 1) * data_group_size)))
    (GNode.slice filters
      ((List.replicate (getShape filters).length 0).set 0
        (group * filters_group_size))
      ((getShape filters).set 0 ((group + 1) * filters_group_size)))
    node.strides node.dilations node.padding_below node.padding_above
    (List.replicate node.kernel_shape.length 1)
    (node.inputs.getD 1 defaultNode) (node.inputs.getD 4 defaultNode)
    (node.inputs.getD 6 defaultNode)

theorem quant_conv_grouped_eq (node : QNode)
    (hg : 1 < node.group_attr.getD 1)
    (hbD : node.group_attr.getD 1 ≤
      ((getShape (node.inputs.getD 0 defaultNode)).getD 1 0 : Int))
    (hbF : node.group_attr.getD 1 ≤
      ((getShape (node.inputs.getD 3 defaultNode)).getD 0 0 : Int))
    (hdD : (getShape (node.inputs.getD 0 defaultNode)).getD 1 0 %
      (node.group_attr.getD 1).toNat = 0)
    (hdF : (getShape (node.inputs.getD 3 defaultNode)).getD 0 0 %
      (node.group_attr.getD 1).toNat = 0)
    (hnb : ¬(node.inputs.length = 9 ∧
      isNull (node.inputs.getD 8 defaultNode) = false)) :
    quant_conv node = Except.ok
      [GNode.concat
        ((List.range (node.group_attr.getD 1).toNat).map (groupConvNode node))
        1] := by
  have h0 : (0 : Int) ≤ node.group_attr.getD 1 := by omega
  have hne : ¬(node.group_attr.getD 1 = 1) := by omega
  have hcond : 0 ≤ node.group_attr.getD 1 ∧
      node.group_attr.getD 1 ≤
        ((getShape (node.inputs.getD 0 defaultNode)).getD 1 0 : Int) ∧
      node.group_attr.getD 1 ≤
        ((getShape (node.inputs.getD 3 defaultNode)).getD 0 0 : Int) :=
    ⟨h0, hbD, hbF⟩
  have hfast : ¬(etypeOf (node.inputs.getD 3 defaultNode) = ElemType.u8 ∧
      node.group_attr.getD 1 = 1) := fun h => hne h.2
  simp only [quant_conv, make_ng_quant_conv,
    if_neg (not_not_intro hcond), if_neg (not_not_intro hdD),
    if_neg (not_not_intro hdF), if_neg hnb, if_neg hfast, if_pos hg,
    Option.isSome_none, Bool.false_eq_true, if_false, Except.map]
  rfl

theorem quant_conv_bias_grouped_error (node : QNode)
    (hg : 1 < node.group_attr.getD 1)
    (hbD : node.group_attr.getD 1 ≤
      ((getShape (node.inputs.getD 0 defaultNode)).getD 1 0 : Int))
    (hbF : node.group_attr.getD 1 ≤
      ((getShape (node.inputs.getD 3 defaultNode)).getD 0 0 : Int))
    (hdD : (getShape (node.inputs.getD 0 defaultNode)).getD 1 0 %
      (node.group_attr.getD 1).toNat = 0)
    (hdF : (getShape (node.inputs.getD 3 defaultNode)).getD 0 0 %
      (node.group_attr.getD 1).toNat = 0)
    (h9 : node.inputs.length = 9)
    (hnn : isNull (node.inputs.getD 8 defaultNode) = false) :
    quant_conv node = Except.error QCError.notSupportedBiasWithGroups := by
  have h0 : (0 : Int) ≤ node.group_attr.getD 1 := by omega
  have hcond : 0 ≤ node.group_attr.getD 1 ∧
      node.group_attr.getD 1 ≤
        ((getShape (node.inputs.getD 0 defaultNode)).getD 1 0 : Int) ∧
      node.group_attr.getD 1 ≤
        ((getShape (node.inputs.getD 3 defaultNode)).getD 0 0 : Int) :=
    ⟨h0, hbD, hbF⟩
  simp only [quant_conv, make_ng_quant_conv,
    if_neg (not_not_intro hcond), if_neg (not_not_intro hdD),
    if_neg (not_not_intro hdF), if_pos (And.intro h9 hnn), if_pos hg,
    Option.isSome_some, if_true, Except.map]

theorem quant_conv_bias_single_eq (node : QNode)
    (hg1 : node.group_attr.getD 1 = 1)
    (hchD : 0 < (getShape (node.inputs.getD 0 defaultNode)).getD 1 0)
    (hchF : 0 < (getShape (node.inputs.getD 3 defaultNode)).getD 0 0)
    (h9 : node.inputs.length = 9)
    (hnn : isNull (node.inputs.getD 8 defaultNode) = false) :
    quant_conv node = Except.ok
      [GNode.quantizedLinearConvolutionBias
        (node.inputs.getD 0 defaultNode) (node.inputs.getD 3 defaultNode)
        (node.inputs.getD 8 defaultNode)
        node.strides node.dilations node.padding_below node.padding_above
        (List.replicate node.kernel_shape.length 1)
        (node.inputs.getD 1 defaultNode) (node.inputs.getD 4 defaultNode)
        (node.inputs.getD 6 defaultNode)] := by
  have hcond : 0 ≤ node.group_attr.getD 1 ∧
      node.group_attr.getD 1 ≤
        ((getShape (node.inputs.getD 0 defaultNode)).getD 1 0 : Int) ∧
      node.group_attr.getD 1 ≤
        ((getShape (node.inputs.getD 3 defaultNode)).getD 0 0 : Int) := by
    refine ⟨by omega, ?_, ?_⟩ <;> rw [hg1] <;> exact_mod_cast (by omega)
  have hdD : (getShape (node.inputs.getD 0 defaultNode)).getD 1 0 %
      (node.group_attr.getD 1).toNat = 0 := by
    rw [hg1]; exact Nat.mod_one _
  have hdF : (getShape (node.inputs.getD 3 defaultNode)).getD 0 0 %
      (node.group_attr.getD 1).toNat = 0 := by
    rw [hg1]; exact Nat.mod_one _
  have hng : ¬(1 < node.group_attr.getD 1) := by omega
  simp only [quant_conv, make_ng_quant_conv,
    if_neg (not_not_intro hcond), if_neg (not_not_intro hdD),
    if_neg (not_not_intro hdF), if_pos (And.intro h9 hnn), if_neg hng,
    Except.map]

theorem quant_conv_fast_eq (node : QNode)
    (hg1 : node.group_attr.getD 1 = 1)
    (hchD : 0 < (getShape (node.inputs.getD 0 defaultNode)).getD 1 0)
    (hchF : 0 < (getShape (node.inputs.getD 3 defaultNode)).getD 0 0)
    (hnb : ¬(node.inputs.length = 9 ∧
      isNull (node.inputs.getD 8 defaultNode) = false))
    (hu8 : etypeOf (node.inputs.getD 3 defaultNode) = ElemType.u8) :
    quant_conv node = Except.ok
      [GNode.quantizedLinearConvolutionZp
        (node.inputs.getD 0 defaultNode) (node.inputs.getD 3 defaultNode)
        node.strides node.dilations node.padding_below node.padding_above
        (List.replicate node.kernel_shape.length 1)
        (node.inputs.getD 1 defaultNode) (node.inputs.getD 2 defaultNode)
        (node.inputs.getD 4 defaultNode) (node.inputs.getD 5 defaultNode)
        (node.inputs.getD 6 defaultNode) (node.inputs.getD 7 defaultNode)] := by
  have hcond : 0 ≤ node.group_attr.getD 1 ∧
      node.group_attr.getD 1 ≤
        ((getShape (node.inputs.getD 0 defaultNode)).getD 1 0 : Int) ∧
      node.group_attr.getD 1 ≤
        ((getShape (node.inputs.getD 3 defaultNode)).getD 0 0 : Int) := by
    refine ⟨by omega, ?_, ?_⟩ <;> rw [hg1] <;> exact_mod_cast (by omega)
  have hdD : (getShape (node.inputs.getD 0 defaultNode)).getD 1 0 %
      (node.group_attr.getD 1).toNat = 0 := by
    rw [hg1]; exact Nat.mod_one _
  have hdF : (getShape (node.inputs.getD 3 defaultNode)).getD 0 0 %
      (node.group_attr.getD 1).toNat = 0 := by
    rw [hg1]; exact Nat.mod_one _
  simp only [quant_conv, make_ng_quant_conv,
    if_neg (not_not_intro hcond), if_neg (not_not_intro hdD),
    if_neg (not_not_intro hdF), if_neg hnb, if_pos (And.intro hu8 hg1)]

theorem quant_conv_plain_eq (node : QNode)
    (hg1 : node.group_attr.getD 1 = 1)
    (hchD : 0 < (getShape (node.inputs.getD 0 defaultNode)).getD 1 0)
    (hchF : 0 < (getShape (node.inputs.getD 3 defaultNode)).getD 0 0)
    (hnb : ¬(node.inputs.length = 9 ∧
      isNull (node.inputs.getD 8 defaultNode) = false))
    (hu8 : ¬ etypeOf (node.inputs.getD 3 defaultNode) = ElemType.u8) :
    quant_conv node = Except.ok
      [GNode.quantizedLinearConvolution
        (node.inputs.getD 0 defaultNode) (node.inputs.getD 3 defaultNode)
        node.strides node.dilations node.padding_below node.padding_above
        (List.replicate node.kernel_shape.length 1)
        (node.inputs.getD 1 defaultNode) (node.inputs.getD 4 defaultNode)
        (node.inputs.getD 6 defaultNode)] := by
  have hcond : 0 ≤ node.group_attr.getD 1 ∧
      node.group_attr.getD 1 ≤
        ((getShape (node.inputs.getD 0 defaultNode)).getD 1 0 : Int) ∧
      node.group_attr.getD 1 ≤
        ((getShape (node.inputs.getD 3 defaultNode)).getD 0 0 : Int) := by
    refine ⟨by omega, ?_, ?_⟩ <;> rw [hg1] <;> exact_mod_cast (by omega)
  have hdD : (getShape (node.inputs.getD 0 defaultNode)).getD 1 0 %
      (node.group_attr.getD 1).toNat = 0 := by
    rw [hg1]; exact Nat.mod_one _
  have hdF : (getShape (node.inputs.getD 3 defaultNode)).getD 0 0 %
      (node.group_attr.getD 1).toNat = 0 := by
    rw [hg1]; exact Nat.mod_one _
  have hfast : ¬(etypeOf (node.inputs.getD 3 defaultNode) = ElemType.u8 ∧
      node.group_attr.getD 1 = 1) := fun h => hu8 h.1
  have hng : ¬(1 < node.group_attr.getD 1) := by omega
  simp only [quant_conv, make_ng_quant_conv,
    if_neg (not_not_intro hcond), if_neg (not_not_intro hdD),
    if_neg (not_not_intro hdF), if_neg hnb, if_neg hfast, if_neg hng,
    Except.map]

/-- C1 (amended): for every conversion call that passes validation, exactly
one of the four dispatch leaves executes, determined by the explicit
decision table over (group count, bias presence, filter element type);
the table is exhaustive and the leaves mutually exclusive.  The fast path
executes precisely when no bias is present AND `g == 1` AND the filter
element type is `u8`: the bias test comes first, so — contrary to the
claim's "in particular" — a present bias excludes the fast path even when
`g == 1` and the filter precision matches. -/
theorem c1_dispatch_decision_table (node : QNode)
    (hg1 : 1 ≤ node.group_attr.getD 1)
    (hbD : node.group_attr.getD 1 ≤
      ((getShape (node.inputs.getD 0 defaultNode)).getD 1 0 : Int))
    (hbF : node.group_attr.getD 1 ≤
      ((getShape (node.inputs.getD 3 defaultNode)).getD 0 0 : Int))
    (hdD : (getShape (node.inputs.getD 0 defaultNode)).getD 1 0 %
      (node.group_attr.getD 1).toNat = 0)
    (hdF : (getShape (node.inputs.getD 3 defaultNode)).getD 0 0 %
      (node.group_attr.getD 1).toNat = 0) :
    executedLeaf (quant_conv node) =
      some (dispatchTable (node.group_attr.getD 1) (biasPresent node)
        (etypeOf (node.inputs.getD 3 defaultNode))) := by
  have hchD : 0 < (getShape (node.inputs.getD 0 defaultNode)).getD 1 0 := by
    omega
  have hchF : 0 < (getShape (node.inputs.getD 3 defaultNode)).getD 0 0 := by
    omega
  by_cases hb : biasPresent node = true
  · have hb' := hb
    unfold biasPresent at hb'
    rw [Bool.and_eq_true, beq_iff_eq, Bool.not_eq_true'] at hb'
    obtain ⟨h9, hnn⟩ := hb'
    by_cases hgg : 1 < node.group_attr.getD 1
    · rw [quant_conv_bias_grouped_error node hgg hbD hbF hdD hdF h9 hnn]
      have ht : dispatchTable (node.group_attr.getD 1) (biasPresent node)
          (etypeOf (node.inputs.getD 3 defaultNode)) = Leaf.groupAssembler := by
        simp only [dispatchTable, hb, eq_self_iff_true, if_true, if_pos hgg]
      rw [ht]
      rfl
    · have hge : node.group_attr.getD 1 = 1 := by omega
      rw [quant_conv_bias_single_eq node hge hchD hchF h9 hnn]
      have ht : dispatchTable (node.group_attr.getD 1) (biasPresent node)
          (etypeOf (node.inputs.getD 3 defaultNode)) = Leaf.biasFused := by
        simp only [dispatchTable, hb, eq_self_iff_true, if_true, if_neg hgg]
      rw [ht]
      rfl
  · have hb0 : biasPresent node = false := by
      revert hb
      cases biasPresent node <;> simp
    have hnb : ¬(node.inputs.length = 9 ∧
        isNull (node.inputs.getD 8 defaultNode) = false) := by
      intro h
      apply hb
      unfold biasPresent
      rw [h.1, h.2]
      rfl
    by_cases hfast : etypeOf (node.inputs.getD 3 defaultNode) = ElemType.u8 ∧
        node.group_attr.getD 1 = 1
    · rw [quant_conv_fast_eq node hfast.2 hchD hchF hnb hfast.1]
      have ht : dispatchTable (node.group_attr.getD 1) (biasPresent node)
          (etypeOf (node.inputs.getD 3 defaultNode)) = Leaf.fastPath := by
        simp only [dispatchTable, hb0, Bool.false_eq_true, if_false,
          if_pos hfast]
      rw [ht]
      rfl
    · by_cases hgg : 1 < node.group_attr.getD 1
      · rw [quant_conv_grouped_eq node hgg hbD hbF hdD hdF hnb]
        have ht : dispatchTable (node.group_attr.getD 1) (biasPresent node)
            (etypeOf (node.inputs.getD 3 defaultNode)) =
            Leaf.groupAssembler := by
          simp only [dispatchTable, hb0, Bool.false_eq_true, if_false,
            if_neg hfast, if_pos hgg]
        rw [ht]
        rfl
      · have hge : node.group_attr.getD 1 = 1 := by omega
        have hu8 : ¬ etypeOf (node.inputs.getD 3 defaultNode) = ElemType.u8 :=
          fun h => hfast ⟨h, hge⟩
        rw [quant_conv_plain_eq node hge hchD hchF hnb hu8]
        have ht : dispatchTable (node.group_attr.getD 1) (biasPresent node)
            (etypeOf (node.inputs.getD 3 defaultNode)) = Leaf.plain := by
          simp only [dispatchTable, hb0, Bool.false_eq_true, if_false,
            if_neg hfast, if_neg hgg]
        rw [ht]
        rfl

/-- Input refuting C1 as stated: `g = 1` (attribute absent, so defaulted),
the filter element type is the fast-path precision `u8`, and a bias is
present (9 inputs, 9th non-null). -/
def exampleC1 : QNode :=
  { inputs := [GNode.tensor 0 [1, 8, 5, 5] ElemType.u8 false,
               GNode.tensor 1 [] ElemType.f32 false,
               GNode.tensor 2 [] ElemType.u8 false,
               GNode.tensor 3 [8, 8, 3, 3] ElemType.u8 false,
               GNode.tensor 4 [] ElemType.f32 false,
               GNode.tensor 5 [] ElemType.u8 false,
               GNode.tensor 6 [] ElemType.f32 false,
               GNode.tensor 7 [] ElemType.u8 false,
               GNode.tensor 8 [8] ElemType.i8 false],
    group_attr := none, strides := [1, 1], dilations := [1, 1],
    kernel_shape := [3, 3], padding_below := [0, 0], padding_above := [0, 0] }

/-- C1 (counterexample): on `exampleC1`, `g == 1` holds and the filter
element type is `u8`, yet the executed leaf is the bias-fused one, not the
fast path — refuting the claim that the fast path runs whenever `g == 1`
and the filter precision matches, bias notwithstanding. -/
theorem c1_fast_path_not_taken_with_bias :
    exampleC1.group_attr.getD 1 = 1 ∧
    etypeOf (exampleC1.inputs.getD 3 defaultNode) = ElemType.u8 ∧
    executedLeaf (quant_conv exampleC1) = some Leaf.biasFused ∧
    executedLeaf (quant_conv exampleC1) ≠ some Leaf.fastPath := by
  decide

/-- C1 (witness): the amended decision-table theorem applied to `exampleC1`. -/
theorem c1_dispatch_decision_table_witness :
    executedLeaf (quant_conv exampleC1) =
      some (dispatchTable (exampleC1.group_attr.getD 1) (biasPresent exampleC1)
        (etypeOf (exampleC1.inputs.getD 3 defaultNode))) :=
  c1_dispatch_decision_table exampleC1 (by decide) (by decide) (by decide)
    (by decide) (by decide)

/-- C2: for every input with group count `g > 1` and a bias tensor present
(9 inputs, 9th non-null), with otherwise-valid shapes (bounds and
divisibility satisfied), the conversion fails with the unsupported-feature
(`NotSupported`) error, an error kind distinct from a validation error. -/
theorem c2_bias_with_groups_unsupported (node : QNode)
    (hg : 1 < node.group_attr.getD 1)
    (hbD : node.group_attr.getD 1 ≤
      ((getShape (node.inputs.getD 0 defaultNode)).getD 1 0 : Int))
    (hbF : node.group_attr.getD 1 ≤
      ((getShape (node.inputs.getD 3 defaultNode)).getD 0 0 : Int))
    (hdD : (getShape (node.inputs.getD 0 defaultNode)).getD 1 0 %
      (node.group_attr.getD 1).toNat = 0)
    (hdF : (getShape (node.inputs.getD 3 defaultNode)).getD 0 0 %
      (node.group_attr.getD 1).toNat = 0)
    (h9 : node.inputs.length = 9)
    (hnn : isNull (node.inputs.getD 8 defaultNode) = false) :
    quant_conv node = Except.error QCError.notSupportedBiasWithGroups ∧
    isValidationError QCError.notSupportedBiasWithGroups = false := by
  exact ⟨quant_conv_bias_grouped_error node hg hbD hbF hdD hdF h9 hnn, rfl⟩

/-- Input for the C2 witness: `g = 2`, both channel counts 8, bias present. -/
def exampleC2 : QNode :=
  { inputs := [GNode.tensor 0 [1, 8, 5, 5] ElemType.u8 false,
               GNode.tensor 1 [] ElemType.f32 false,
               GNode.tensor 2 [] ElemType.u8 false,
               GNode.tensor 3 [8, 4, 3, 3] ElemType.i8 false,
               GNode.tensor 4 [] ElemType.f32 false,
               GNode.tensor 5 [] ElemType.i8 false,
               GNode.tensor 6 [] ElemType.f32 false,
               GNode.tensor 7 [] ElemType.u8 false,
               GNode.tensor 8 [8] ElemType.i8 false],
    group_attr := some 2, strides := [1, 1], dilations := [1, 1],
    kernel_shape := [3, 3], padding_below := [0, 0], padding_above := [0, 0] }

/-- C2 (witness): the unsupported-feature rejection on a concrete grouped,
biased, otherwise-valid input. -/
theorem c2_bias_with_groups_unsupported_witness :
    quant_conv exampleC2 = Except.error QCError.notSupportedBiasWithGroups ∧
    isValidationError QCError.notSupportedBiasWithGroups = false :=
  c2_bias_with_groups_unsupported exampleC2 (by decide) (by decide) (by decide)
    (by decide) (by decide) (by decide) (by decide)

/-- Failing input for C3: the `group` attribute is 0 with otherwise
ordinary shapes (8 inputs, data channels 1, filter output channels 1). -/
def exampleC3 : QNode :=
  { inputs := [GNode.tensor 0 [1, 1, 5, 5] ElemType.u8 false,
               GNode.tensor 1 [] ElemType.f32 false,
               GNode.tensor 2 [] ElemType.u8 false,
               GNode.tensor 3 [1, 1, 3, 3] ElemType.i8 false,
               GNode.tensor 4 [] ElemType.f32 false,
               GNode.tensor 5 [] ElemType.i8 false,
               GNode.tensor 6 [] ElemType.f32 false,
               GNode.tensor 7 [] ElemType.u8 false],
    group_attr := some 0, strides := [1, 1], dilations := [1, 1],
    kernel_shape := [3, 3], padding_below := [0, 0], padding_above := [0, 0] }

/-- C3: refuted by the code — the bounds assertion checks `groups >= 0`
rather than `groups >= 1`, so the input `g = 0` passes it and execution
reaches the divisibility checks, evaluating `n_data_channels % groups` with
divisor 0 (undefined behaviour in C++; `Nat.mod` returns the dividend, so
the total model goes on to fail the divisibility assertion instead).  The
claim — that `g = 0` is rejected by the bounds validation and the
divisor-`g` arithmetic is unreachable — describes the spec's stated
invariant (`g ≥ 1`), which the code does not enforce. -/
theorem c3_group_zero_reaches_division_by_zero :
    exampleC3.group_attr.getD 1 = 0 ∧
    reachesDivisibilityChecks exampleC3 = true ∧
    quant_conv exampleC3 ≠ Except.error (QCError.invalidGroupAttribute 0) ∧
    quant_conv exampleC3 = Except.error QCError.dataChannelsIndivisible := by
  refine ⟨by decide, by decide, ?_, rfl⟩
  intro h
  rw [show quant_conv exampleC3 = Except.error QCError.dataChannelsIndivisible
    from rfl] at h
  exact absurd (Except.error.inj h) (by decide)

theorem shapesOf_eq_map (l : List GNode) : shapesOf l = l.map getShape := by
  induction l with
  | nil => rfl
  | cons a t ih => simp [shapesOf, ih]

theorem getD_set_self (l : List Nat) (i a : Nat) (h : i < l.length) :
    (l.set i a).getD i 0 = a := by
  rw [List.getD_eq_getElem _ _ (by simpa using h)]
  simp

theorem groupConvNode_slice_bounds (node : QNode) (i : Nat)
    (d0 c : Nat) (dr : List Nat) (cf : Nat) (fr : List Nat)
    (hD : getShape (node.inputs.getD 0 defaultNode) = d0 :: c :: dr)
    (hF : getShape (node.inputs.getD 3 defaultNode) = cf :: fr) :
    dataSliceBounds (groupConvNode node i) =
      (i * (c / (node.group_attr.getD 1).toNat),
       (i + 1) * (c / (node.group_attr.getD 1).toNat)) ∧
    filterSliceBounds (groupConvNode node i) =
      (i * (cf / (node.group_attr.getD 1).toNat),
       (i + 1) * (cf / (node.group_attr.getD 1).toNat)) ∧
    (getShape (groupConvNode node i)).getD 1 0 =
      cf / (node.group_attr.getD 1).toNat ∧
    1 < (getShape (groupConvNode node i)).length := by
  refine ⟨?_, ?_, ?_, ?_⟩
  · simp only [groupConvNode]
    rw [hD]
    simp [dataSliceBounds, List.replicate_succ]
  · simp only [groupConvNode]
    rw [hD, hF]
    simp [filterSliceBounds, List.replicate_succ]
  · simp only [groupConvNode]
    rw [hD, hF]
    simp [getShape, List.replicate_succ, Nat.succ_mul]
  · simp only [groupConvNode]
    rw [hD, hF]
    simp [getShape]

theorem cons2_of_getD1_pos (l : List Nat) (c : Nat) (h : l.getD 1 0 = c)
    (hc : 0 < c) : ∃ a r, l = a :: c :: r := by
  match l with
  | [] => simp [List.getD] at h; omega
  | [a] => simp [List.getD] at h; omega
  | a :: b :: r =>
    simp [List.getD] at h
    exact ⟨a, r, by rw [h]⟩

theorem cons1_of_getD0_pos (l : List Nat) (c : Nat) (h : l.getD 0 0 = c)
    (hc : 0 < c) : ∃ r, l = c :: r := by
  match l with
  | [] => simp [List.getD] at h; omega
  | a :: r =>
    simp [List.getD] at h
    exact ⟨r, by rw [h]⟩

/-- C4: on the decomposition path (`g > 1`, no bias, bounds and divisibility
satisfied) the conversion returns a single concatenation of `g` per-group
convolutions; the data-channel slice of group `i` is the half-open range
`[i*(chD/g), (i+1)*(chD/g))` and the filter output-channel slice is
`[i*(chF/g), (i+1)*(chF/g))`; the slice sizes sum to the full channel
counts (exact cover), distinct groups' ranges are disjoint, and the
concatenated output's channel count equals the original filter's
output-channel count. -/
theorem c4_group_partition (node : QNode) (g dsz fsz chD chF : Nat)
    (hgdef : (node.group_attr.getD 1).toNat = g)
    (hchD : (getShape (node.inputs.getD 0 defaultNode)).getD 1 0 = chD)
    (hchF : (getShape (node.inputs.getD 3 defaultNode)).getD 0 0 = chF)
    (hdsz : chD / g = dsz)
    (hfsz : chF / g = fsz)
    (hg : 1 < node.group_attr.getD 1)
    (hbD : node.group_attr.getD 1 ≤ (chD : Int))
    (hbF : node.group_attr.getD 1 ≤ (chF : Int))
    (hdD : chD % g = 0)
    (hdF : chF % g = 0)
    (hnb : ¬(node.inputs.length = 9 ∧
      isNull (node.inputs.getD 8 defaultNode) = false)) :
    ∃ ns : List GNode,
      quant_conv node = Except.ok [GNode.concat ns 1] ∧
      ns.length = g ∧
      (∀ i, i < g →
        dataSliceBounds (ns.getD i defaultNode) = (i * dsz, (i + 1) * dsz) ∧
        filterSliceBounds (ns.getD i defaultNode) =
          (i * fsz, (i + 1) * fsz)) ∧
      (ns.map fun n =>
        (dataSliceBounds n).2 - (dataSliceBounds n).1).sum = chD ∧
      (ns.map fun n =>
        (filterSliceBounds n).2 - (filterSliceBounds n).1).sum = chF ∧
      (∀ i j, i < j → j < g →
        (dataSliceBounds (ns.getD i defaultNode)).2 ≤
          (dataSliceBounds (ns.getD j defaultNode)).1 ∧
        (filterSliceBounds (ns.getD i defaultNode)).2 ≤
          (filterSliceBounds (ns.getD j defaultNode)).1) ∧
      channelCount (GNode.concat ns 1) = chF := by
  have hg2 : 2 ≤ g := by omega
  have hchD2 : 2 ≤ chD := by exact_mod_cast le_trans (by omega : (2:Int) ≤ node.group_attr.getD 1) hbD
  have hchF2 : 2 ≤ chF := by exact_mod_cast le_trans (by omega : (2:Int) ≤ node.group_attr.getD 1) hbF
  obtain ⟨d0, dr, hD⟩ := cons2_of_getD1_pos _ chD hchD (by omega)
  obtain ⟨fr, hF⟩ := cons1_of_getD0_pos _ chF hchF (by omega)
  have hbD' : node.group_attr.getD 1 ≤
      ((getShape (node.inputs.getD 0 defaultNode)).getD 1 0 : Int) := by
    rw [hchD]; exact hbD
  have hbF' : node.group_attr.getD 1 ≤
      ((getShape (node.inputs.getD 3 defaultNode)).getD 0 0 : Int) := by
    rw [hchF]; exact hbF
  have hdD' : (getShape (node.inputs.getD 0 defaultNode)).getD 1 0 %
      (node.group_attr.getD 1).toNat = 0 := by rw [hchD, hgdef]; exact hdD
  have hdF' : (getShape (node.inputs.getD 3 defaultNode)).getD 0 0 %
      (node.group_attr.getD 1).toNat = 0 := by rw [hchF, hgdef]; exact hdF
  have heq := quant_conv_grouped_eq node hg hbD' hbF' hdD' hdF' hnb
  rw [hgdef] at heq
  have hbounds := fun i => groupConvNode_slice_bounds node i d0 chD dr chF fr hD hF
  have hdb : ∀ i, dataSliceBounds (groupConvNode node i) =
      (i * dsz, (i + 1) * dsz) := by
    intro i
    rw [(hbounds i).1, hgdef, hdsz]
  have hfb : ∀ i, filterSliceBounds (groupConvNode node i) =
      (i * fsz, (i + 1) * fsz) := by
    intro i
    rw [(hbounds i).2.1, hgdef, hfsz]
  have hshape1 : ∀ i, (getShape (groupConvNode node i)).getD 1 0 = fsz := by
    intro i
    rw [(hbounds i).2.2.1, hgdef, hfsz]
  refine ⟨(List.range g).map (groupConvNode node), heq, by simp, ?_, ?_, ?_, ?_, ?_⟩
  · intro i hi
    have hget : ((List.range g).map (groupConvNode node)).getD i defaultNode =
        groupConvNode node i := by
      rw [List.getD_eq_getElem _ _ (by simpa using hi)]
      simp
    rw [hget, hdb i, hfb i]
    exact ⟨rfl, rfl⟩
  · rw [List.map_map]
    have hfun : ((fun n => (dataSliceBounds n).2 - (dataSliceBounds n).1) ∘
        groupConvNode node) = fun _ : Nat => dsz := by
      funext i
      simp only [Function.comp_apply, hdb i]
      simp [Nat.succ_mul]
    rw [hfun]
    simp only [List.map_const', List.length_range, List.sum_replicate,
      smul_eq_mul]
    rw [← hdsz]
    exact Nat.mul_div_cancel' (Nat.dvd_of_mod_eq_zero hdD)
  · rw [List.map_map]
    have hfun : ((fun n => (filterSliceBounds n).2 - (filterSliceBounds n).1) ∘
        groupConvNode node) = fun _ : Nat => fsz := by
      funext i
      simp only [Function.comp_apply, hfb i]
      simp [Nat.succ_mul]
    rw [hfun]
    simp only [List.map_const', List.length_range, List.sum_replicate,
      smul_eq_mul]
    rw [← hfsz]
    exact Nat.mul_div_cancel' (Nat.dvd_of_mod_eq_zero hdF)
  · intro i j hij hj
    have hgeti : ((List.range g).map (groupConvNode node)).getD i defaultNode =
        groupConvNode node i := by
      rw [List.getD_eq_getElem _ _ (by simp; omega)]
      simp
    have hgetj : ((List.range g).map (groupConvNode node)).getD j defaultNode =
        groupConvNode node j := by
      rw [List.getD_eq_getElem _ _ (by simpa using hj)]
      simp
    rw [hgeti, hgetj, hdb i, hdb j, hfb i, hfb j]
    constructor
    · exact Nat.mul_le_mul_right _ (by omega)
    · exact Nat.mul_le_mul_right _ (by omega)
  · have hmap : shapesOf ((List.range g).map (groupConvNode node)) =
        ((List.range g).map (groupConvNode node)).map getShape :=
      shapesOf_eq_map _
    obtain ⟨k, hk⟩ : ∃ k, g = k + 1 := ⟨g - 1, by omega⟩
    have hrange : List.range g = 0 :: (List.range k).map Nat.succ := by
      rw [hk, List.range_succ_eq_map]
    have hsum : ((shapesOf ((List.range g).map (groupConvNode node))).map
        (fun s => s.getD 1 0)).sum = chF := by
      rw [hmap, List.map_map, List.map_map]
      have : (((fun s => s.getD 1 0) ∘ getShape) ∘ groupConvNode node) =
          fun i => fsz := by
        funext i
        simp only [Function.comp_apply]
        exact hshape1 i
      rw [this]
      simp only [List.map_const', List.length_range, List.sum_replicate,
        smul_eq_mul]
      rw [← hfsz]
      exact Nat.mul_div_cancel' (Nat.dvd_of_mod_eq_zero hdF)
    have hhead : (shapesOf ((List.range g).map (groupConvNode node))).headD []
        = getShape (groupConvNode node 0) := by
      rw [hmap, hrange]
      simp
    show (getShape (GNode.concat ((List.range g).map (groupConvNode node)) 1)).getD 1 0 = chF
    rw [show getShape (GNode.concat ((List.range g).map (groupConvNode node)) 1) =
        ((shapesOf ((List.range g).map (groupConvNode node))).headD []).set 1
          (((shapesOf ((List.range g).map (groupConvNode node))).map
            (fun s => s.getD 1 0)).sum) from rfl]
    rw [hsum, hhead]
    exact getD_set_self _ 1 chF (hbounds 0).2.2.2

/-- Input for the C4 witness: the spec's concrete scenario — data channels 8,
filter output channels 8, `g = 2`, no bias. -/
def exampleC4 : QNode :=
  { inputs := [GNode.tensor 0 [1, 8, 5, 5] ElemType.u8 false,
               GNode.tensor 1 [] ElemType.f32 false,
               GNode.tensor 2 [] ElemType.u8 false,
               GNode.tensor 3 [8, 4, 3, 3] ElemType.i8 false,
               GNode.tensor 4 [] ElemType.f32 false,
               GNode.tensor 5 [] ElemType.i8 false,
               GNode.tensor 6 [] ElemType.f32 false,
               GNode.tensor 7 [] ElemType.u8 false],
    group_attr := some 2, strides := [1, 1], dilations := [1, 1],
    kernel_shape := [3, 3], padding_below := [0, 0], padding_above := [0, 0] }

/-- C4 (witness): the partition theorem at the spec's concrete scenario:
two groups, slices `[0,4)` and `[4,8)` on both channel axes, sizes summing
to 8, disjoint ranges, and an assembled channel count of 8. -/
theorem c4_group_partition_witness :
    ∃ ns : List GNode,
      quant_conv exampleC4 = Except.ok [GNode.concat ns 1] ∧
      ns.length = 2 ∧
      (∀ i, i < 2 →
        dataSliceBounds (ns.getD i defaultNode) = (i * 4, (i + 1) * 4) ∧
        filterSliceBounds (ns.getD i defaultNode) = (i * 4, (i + 1) * 4)) ∧
      (ns.map fun n =>
        (dataSliceBounds n).2 - (dataSliceBounds n).1).sum = 8 ∧
      (ns.map fun n =>
        (filterSliceBounds n).2 - (filterSliceBounds n).1).sum = 8 ∧
      (∀ i j, i < j → j < 2 →
        (dataSliceBounds (ns.getD i defaultNode)).2 ≤
          (dataSliceBounds (ns.getD j defaultNode)).1 ∧
        (filterSliceBounds (ns.getD i defaultNode)).2 ≤
          (filterSliceBounds (ns.getD j defaultNode)).1) ∧
      channelCount (GNode.concat ns 1) = 8 :=
  c4_group_partition exampleC4 2 4 4 8 8 rfl rfl rfl rfl rfl (by decide)
    (by decide) (by decide) (by decide) (by decide) (by decide)

/-- C5 (amended): for every `g` that passes the bounds assertion, if
`data_channels mod g != 0` the conversion fails with the distinct
data-divisibility validation error — whose message is fixed text carrying
no values (neither `data_channels` nor `g`; only the bounds assertion's
message carries `g`); symmetrically, if the data check passes and
`filter_output_channels mod g != 0`, with the distinct filter-divisibility
validation error, likewise carrying no values. -/
theorem c5_divisibility_errors_carry_no_values (node : QNode)
    (h0 : 0 ≤ node.group_attr.getD 1)
    (hbD : node.group_attr.getD 1 ≤
      ((getShape (node.inputs.getD 0 defaultNode)).getD 1 0 : Int))
    (hbF : node.group_attr.getD 1 ≤
      ((getShape (node.inputs.getD 3 defaultNode)).getD 0 0 : Int)) :
    ((getShape (node.inputs.getD 0 defaultNode)).getD 1 0 %
        (node.group_attr.getD 1).toNat ≠ 0 →
      quant_conv node = Except.error QCError.dataChannelsIndivisible ∧
      isValidationError QCError.dataChannelsIndivisible = true ∧
      carriedValues QCError.dataChannelsIndivisible = []) ∧
    ((getShape (node.inputs.getD 0 defaultNode)).getD 1 0 %
        (node.group_attr.getD 1).toNat = 0 →
      (getShape (node.inputs.getD 3 defaultNode)).getD 0 0 %
        (node.group_attr.getD 1).toNat ≠ 0 →
      quant_conv node = Except.error QCError.filtersChannelsIndivisible ∧
      isValidationError QCError.filtersChannelsIndivisible = true ∧
      carriedValues QCError.filtersChannelsIndivisible = []) := by
  have hcond : 0 ≤ node.group_attr.getD 1 ∧
      node.group_attr.getD 1 ≤
        ((getShape (node.inputs.getD 0 defaultNode)).getD 1 0 : Int) ∧
      node.group_attr.getD 1 ≤
        ((getShape (node.inputs.getD 3 defaultNode)).getD 0 0 : Int) :=
    ⟨h0, hbD, hbF⟩
  constructor
  · intro hdD
    refine ⟨?_, rfl, rfl⟩
    simp only [quant_conv, if_neg (not_not_intro hcond), if_pos hdD]
  · intro hdD hdF
    refine ⟨?_, rfl, rfl⟩
    simp only [quant_conv, if_neg (not_not_intro hcond),
      if_neg (not_not_intro hdD), if_pos hdF]

/-- Input refuting C5 as stated: the spec's own scenario `g = 3`,
data channels 8 (8 mod 3 ≠ 0), otherwise-valid bounds. -/
def exampleC5 : QNode :=
  { inputs := [GNode.tensor 0 [1, 8, 5, 5] ElemType.u8 false,
               GNode.tensor 1 [] ElemType.f32 false,
               GNode.tensor 2 [] ElemType.u8 false,
               GNode.tensor 3 [8, 4, 3, 3] ElemType.i8 false,
               GNode.tensor 4 [] ElemType.f32 false,
               GNode.tensor 5 [] ElemType.i8 false,
               GNode.tensor 6 [] ElemType.f32 false,
               GNode.tensor 7 [] ElemType.u8 false],
    group_attr := some 3, strides := [1, 1], dilations := [1, 1],
    kernel_shape := [3, 3], padding_below := [0, 0], padding_above := [0, 0] }

/-- C5 (counterexample): at `g = 3`, `data_channels = 8` the conversion does
fail with the data-divisibility validation error, but that error carries no
values at all — in particular it names neither `data_channels` (8) nor `g`
(3), refuting the claim that the validation error carries the offending
values. -/
theorem c5_divisibility_error_names_no_values :
    quant_conv exampleC5 = Except.error QCError.dataChannelsIndivisible ∧
    carriedValues QCError.dataChannelsIndivisible = [] ∧
    ¬ (8 : Int) ∈ carriedValues QCError.dataChannelsIndivisible ∧
    ¬ (3 : Int) ∈ carriedValues QCError.dataChannelsIndivisible := by
  refine ⟨rfl, rfl, by decide, by decide⟩

/-- C5 (witness): the amended theorem applied at `g = 3`,
`data_channels = 8`, with the divisibility-failure hypothesis discharged. -/
theorem c5_divisibility_errors_carry_no_values_witness :
    quant_conv exampleC5 = Except.error QCError.dataChannelsIndivisible ∧
    isValidationError QCError.dataChannelsIndivisible = true ∧
    carriedValues QCError.dataChannelsIndivisible = [] :=
  (c5_divisibility_errors_carry_no_values exampleC5 (by decide) (by decide)
    (by decide)).1 (by decide)

/-- C6: on the decomposition path (`g > 1`, no bias, valid shapes) the scale
arguments handed to every one of the `g` per-group primitive calls are
exactly the top-level scale operands (inputs 1, 4 and 6) — no per-group
scale derivation or modification happens in between. -/
theorem c6_scales_passed_through_unchanged (node : QNode)
    (hg : 1 < node.group_attr.getD 1)
    (hbD : node.group_attr.getD 1 ≤
      ((getShape (node.inputs.getD 0 defaultNode)).getD 1 0 : Int))
    (hbF : node.group_attr.getD 1 ≤
      ((getShape (node.inputs.getD 3 defaultNode)).getD 0 0 : Int))
    (hdD : (getShape (node.inputs.getD 0 defaultNode)).getD 1 0 %
      (node.group_attr.getD 1).toNat = 0)
    (hdF : (getShape (node.inputs.getD 3 defaultNode)).getD 0 0 %
      (node.group_attr.getD 1).toNat = 0)
    (hnb : ¬(node.inputs.length = 9 ∧
      isNull (node.inputs.getD 8 defaultNode) = false)) :
    ∃ ns : List GNode,
      quant_conv node = Except.ok [GNode.concat ns 1] ∧
      ns.length = (node.group_attr.getD 1).toNat ∧
      ∀ n ∈ ns, scaleArgsOf n =
        some (node.inputs.getD 1 defaultNode, node.inputs.getD 4 defaultNode,
          node.inputs.getD 6 defaultNode) := by
  refine ⟨_, quant_conv_grouped_eq node hg hbD hbF hdD hdF hnb, by simp, ?_⟩
  intro n hn
  obtain ⟨i, _, rfl⟩ := List.mem_map.mp hn
  rfl

/-- Input for the C6 witness: `g = 2`, channel counts 8/8, no bias, with
distinguishable scale operands. -/
def exampleC6 : QNode :=
  { inputs := [GNode.tensor 0 [1, 8, 5, 5] ElemType.u8 false,
               GNode.tensor 11 [] ElemType.f32 false,
               GNode.tensor 2 [] ElemType.u8 false,
               GNode.tensor 3 [8, 4, 3, 3] ElemType.i8 false,
               GNode.tensor 14 [] ElemType.f32 false,
               GNode.tensor 5 [] ElemType.i8 false,
               GNode.tensor 16 [] ElemType.f32 false,
               GNode.tensor 7 [] ElemType.u8 false],
    group_attr := some 2, strides := [1, 1], dilations := [1, 1],
    kernel_shape := [3, 3], padding_below := [0, 0], padding_above := [0, 0] }

/-- C6 (witness): the pass-through theorem at a concrete grouped input. -/
theorem c6_scales_passed_through_unchanged_witness :
    ∃ ns : List GNode,
      quant_conv exampleC6 = Except.ok [GNode.concat ns 1] ∧
      ns.length = (exampleC6.group_attr.getD 1).toNat ∧
      ∀ n ∈ ns, scaleArgsOf n =
        some (exampleC6.inputs.getD 1 defaultNode,
          exampleC6.inputs.getD 4 defaultNode,
          exampleC6.inputs.getD 6 defaultNode) :=
  c6_scales_passed_through_unchanged exampleC6 (by decide) (by decide)
    (by decide) (by decide) (by decide) (by decide)

/-- C7: with `g = 1`, a bias present (9 inputs, 9th non-null) and the
fast-path filter precision not met, the conversion emits exactly one
bias-fused primitive call on the full, unsliced data and filter operands —
the returned root is that single call, applied to the original input
tensors, with no slice and no concatenation node built. -/
theorem c7_bias_fused_single_call (node : QNode)
    (hg1 : node.group_attr.getD 1 = 1)
    (hchD : 0 < (getShape (node.inputs.getD 0 defaultNode)).getD 1 0)
    (hchF : 0 < (getShape (node.inputs.getD 3 defaultNode)).getD 0 0)
    (h9 : node.inputs.length = 9)
    (hnn : isNull (node.inputs.getD 8 defaultNode) = false)
    (hu8 : ¬ etypeOf (node.inputs.getD 3 defaultNode) = ElemType.u8) :
    quant_conv node = Except.ok
      [GNode.quantizedLinearConvolutionBias
        (node.inputs.getD 0 defaultNode) (node.inputs.getD 3 defaultNode)
        (node.inputs.getD 8 defaultNode)
        node.strides node.dilations node.padding_below node.padding_above
        (List.replicate node.kernel_shape.length 1)
        (node.inputs.getD 1 defaultNode) (node.inputs.getD 4 defaultNode)
        (node.inputs.getD 6 defaultNode)] ∧
    executedLeaf (quant_conv node) = some Leaf.biasFused := by
  have heq := quant_conv_bias_single_eq node hg1 hchD hchF h9 hnn
  exact ⟨heq, by rw [heq]; rfl⟩

/-- Input for the C7 witness: `g = 1`, bias present, filter element type
`i8` (fast-path precision not met). -/
def exampleC7 : QNode :=
  { inputs := [GNode.tensor 0 [1, 4, 5, 5] ElemType.u8 false,
               GNode.tensor 1 [] ElemType.f32 false,
               GNode.tensor 2 [] ElemType.u8 false,
               GNode.tensor 3 [4, 4, 3, 3] ElemType.i8 false,
               GNode.tensor 4 [] ElemType.f32 false,
               GNode.tensor 5 [] ElemType.i8 false,
               GNode.tensor 6 [] ElemType.f32 false,
               GNode.tensor 7 [] ElemType.u8 false,
               GNode.tensor 8 [4] ElemType.i8 false],
    group_attr := some 1, strides := [1, 1], dilations := [1, 1],
    kernel_shape := [3, 3], padding_below := [0, 0], padding_above := [0, 0] }

/-- C7 (witness): the single bias-fused call at a concrete input. -/
theorem c7_bias_fused_single_call_witness :
    quant_conv exampleC7 = Except.ok
      [GNode.quantizedLinearConvolutionBias
        (exampleC7.inputs.getD 0 defaultNode) (exampleC7.inputs.getD 3 defaultNode)
        (exampleC7.inputs.getD 8 defaultNode)
        exampleC7.strides exampleC7.dilations exampleC7.padding_below
        exampleC7.padding_above
        (List.replicate exampleC7.kernel_shape.length 1)
        (exampleC7.inputs.getD 1 defaultNode) (exampleC7.inputs.getD 4 defaultNode)
        (exampleC7.inputs.getD 6 defaultNode)] ∧
    executedLeaf (quant_conv exampleC7) = some Leaf.biasFused :=
  c7_bias_fused_single_call exampleC7 (by decide) (by decide) (by decide)
    (by decide) (by decide) (by decide)

/-- Case analysis of every possible outcome of `quant_conv`: either a
validation/unsupported error (the unsupported one only when a bias is
present), or a single returned node all of whose emitted primitive calls
received the all-ones data-dilation sequence of the kernel's rank (the
bias-fused root only when a bias is present). -/
theorem quant_conv_cases (node : QNode) :
    (∃ e, quant_conv node = Except.error e ∧
      (e = QCError.notSupportedBiasWithGroups →
        node.inputs.length = 9 ∧
        isNull (node.inputs.getD 8 defaultNode) = false)) ∨
    (∃ n, quant_conv node = Except.ok [n] ∧
      (∀ c ∈ emittedPrimitives n, dataDilationArg c =
        some (List.replicate node.kernel_shape.length 1)) ∧
      (leafOfRoot n = some Leaf.biasFused →
        node.inputs.length = 9 ∧
        isNull (node.inputs.getD 8 defaultNode) = false)) := by
  by_cases h1 : 0 ≤ node.group_attr.getD 1 ∧
      node.group_attr.getD 1 ≤
        ((getShape (node.inputs.getD 0 defaultNode)).getD 1 0 : Int) ∧
      node.group_attr.getD 1 ≤
        ((getShape (node.inputs.getD 3 defaultNode)).getD 0 0 : Int)
  case neg =>
    left
    refine ⟨QCError.invalidGroupAttribute (node.group_attr.getD 1), ?_, ?_⟩
    · simp only [quant_conv, if_pos h1]
    · intro hh
      simp at hh
  case pos =>
  by_cases h2 : (getShape (node.inputs.getD 0 defaultNode)).getD 1 0 %
      (node.group_attr.getD 1).toNat = 0
  case neg =>
    left
    refine ⟨QCError.dataChannelsIndivisible, ?_, ?_⟩
    · simp only [quant_conv, if_neg (not_not_intro h1), if_pos h2]
    · intro hh
      simp at hh
  case pos =>
  by_cases h3 : (getShape (node.inputs.getD 3 defaultNode)).getD 0 0 %
      (node.group_attr.getD 1).toNat = 0
  case neg =>
    left
    refine ⟨QCError.filtersChannelsIndivisible, ?_, ?_⟩
    · simp only [quant_conv, if_neg (not_not_intro h1),
        if_neg (not_not_intro h2), if_pos h3]
    · intro hh
      simp at hh
  case pos =>
  by_cases hb : node.inputs.length = 9 ∧
      isNull (node.inputs.getD 8 defaultNode) = false
  case pos =>
    by_cases hgg : 1 < node.group_attr.getD 1
    case pos =>
      left
      refine ⟨QCError.notSupportedBiasWithGroups, ?_, fun _ => hb⟩
      simp only [quant_conv, make_ng_quant_conv, if_neg (not_not_intro h1),
        if_neg (not_not_intro h2), if_neg (not_not_intro h3), if_pos hb,
        if_pos hgg, Option.isSome_some, if_true, Except.map]
    case neg =>
      right
      refine ⟨GNode.quantizedLinearConvolutionBias
        (node.inputs.getD 0 defaultNode) (node.inputs.getD 3 defaultNode)
        (node.inputs.getD 8 defaultNode)
        node.strides node.dilations node.padding_below node.padding_above
        (List.replicate node.kernel_shape.length 1)
        (node.inputs.getD 1 defaultNode) (node.inputs.getD 4 defaultNode)
        (node.inputs.getD 6 defaultNode), ?_, ?_, ?_⟩
      · simp only [quant_conv, make_ng_quant_conv, if_neg (not_not_intro h1),
          if_neg (not_not_intro h2), if_neg (not_not_intro h3), if_pos hb,
          if_neg hgg, Except.map]
      · intro c hc
        simp only [emittedPrimitives, List.mem_singleton] at hc
        rw [hc]
        rfl
      · intro _
        exact hb
  case neg =>
    by_cases hf : etypeOf (node.inputs.getD 3 defaultNode) = ElemType.u8 ∧
        node.group_attr.getD 1 = 1
    case pos =>
      right
      refine ⟨GNode.quantizedLinearConvolutionZp
        (node.inputs.getD 0 defaultNode) (node.inputs.getD 3 defaultNode)
        node.strides node.dilations node.padding_below node.padding_above
        (List.replicate node.kernel_shape.length 1)
        (node.inputs.getD 1 defaultNode) (node.inputs.getD 2 defaultNode)
        (node.inputs.getD 4 defaultNode) (node.inputs.getD 5 defaultNode)
        (node.inputs.getD 6 defaultNode) (node.inputs.getD 7 defaultNode),
        ?_, ?_, ?_⟩
      · simp only [quant_conv, make_ng_quant_conv, if_neg (not_not_intro h1),
          if_neg (not_not_intro h2), if_neg (not_not_intro h3), if_neg hb,
          if_pos hf]
      · intro c hc
        simp only [emittedPrimitives, List.mem_singleton] at hc
        rw [hc]
        rfl
      · intro hh
        simp [leafOfRoot] at hh
    case neg =>
      by_cases hgg : 1 < node.group_attr.getD 1
      case pos =>
        right
        refine ⟨GNode.concat
          ((List.range (node.group_attr.getD 1).toNat).map
            (groupConvNode node)) 1, ?_, ?_, ?_⟩
        · exact quant_conv_grouped_eq node hgg h1.2.1 h1.2.2 h2 h3 hb
        · intro c hc
          simp only [emittedPrimitives, List.mem_map] at hc
          obtain ⟨i, _, rfl⟩ := hc
          rfl
        · intro hh
          simp [leafOfRoot] at hh
      case neg =>
        right
        refine ⟨GNode.quantizedLinearConvolution
          (node.inputs.getD 0 defaultNode) (node.inputs.getD 3 defaultNode)
          node.strides node.dilations node.padding_below node.padding_above
          (List.replicate node.kernel_shape.length 1)
          (node.inputs.getD 1 defaultNode) (node.inputs.getD 4 defaultNode)
          (node.inputs.getD 6 defaultNode), ?_, ?_, ?_⟩
        · simp only [quant_conv, make_ng_quant_conv,
            if_neg (not_not_intro h1), if_neg (not_not_intro h2),
            if_neg (not_not_intro h3), if_neg hb, if_neg hf, if_neg hgg,
            Except.map]
        · intro c hc
          simp only [emittedPrimitives, List.mem_singleton] at hc
          rw [hc]
          rfl
        · intro hh
          simp [leafOfRoot] at hh

theorem getD_take_lt (l : List GNode) (n i : Nat) (d : GNode) (h : i < n) :
    (l.take n).getD i d = l.getD i d := by
  simp [List.getD, List.getElem?_take, h]

/-- C8: an operator with 9 positional inputs whose 9th (bias) slot holds a
null node converts exactly as the same operator with only the first 8
inputs: the results coincide, the bias-with-groups unsupported-feature
error cannot occur, and the bias-fused leaf is never taken. -/
theorem c8_null_bias_equals_no_bias (node : QNode)
    (h9 : node.inputs.length = 9)
    (hnull : isNull (node.inputs.getD 8 defaultNode) = true) :
    quant_conv node = quant_conv { node with inputs := node.inputs.take 8 } ∧
    quant_conv node ≠ Except.error QCError.notSupportedBiasWithGroups ∧
    executedLeaf (quant_conv node) ≠ some Leaf.biasFused := by
  have e0 := getD_take_lt node.inputs 8 0 defaultNode (by omega)
  have e1 := getD_take_lt node.inputs 8 1 defaultNode (by omega)
  have e2 := getD_take_lt node.inputs 8 2 defaultNode (by omega)
  have e3 := getD_take_lt node.inputs 8 3 defaultNode (by omega)
  have e4 := getD_take_lt node.inputs 8 4 defaultNode (by omega)
  have e5 := getD_take_lt node.inputs 8 5 defaultNode (by omega)
  have e6 := getD_take_lt node.inputs 8 6 defaultNode (by omega)
  have e7 := getD_take_lt node.inputs 8 7 defaultNode (by omega)
  have hc1 : ¬(node.inputs.length = 9 ∧
      isNull (node.inputs.getD 8 defaultNode) = false) := by
    intro h
    rw [h.2] at hnull
    exact Bool.noConfusion hnull
  have hc2 : ¬((node.inputs.take 8).length = 9 ∧
      isNull ((node.inputs.take 8).getD 8 defaultNode) = false) := by
    simp [List.length_take, h9]
  refine ⟨?_, ?_, ?_⟩
  · simp only [quant_conv, e0, e1, e2, e3, e4, e5, e6, e7, if_neg hc1,
      if_neg hc2]
  · rcases quant_conv_cases node with ⟨e, he, himp⟩ | ⟨n, he, _, himp⟩
    · rw [he]
      intro hx
      have he2 : e = QCError.notSupportedBiasWithGroups := Except.error.inj hx
      have hf2 := (himp he2).2
      rw [hf2] at hnull
      exact Bool.noConfusion hnull
    · rw [he]
      intro hx
      cases hx
  · rcases quant_conv_cases node with ⟨e, he, himp⟩ | ⟨n, he, _, himp⟩
    · rw [he]
      intro hx
      cases e <;> simp [executedLeaf] at hx
    · rw [he]
      intro hx
      have hleaf : leafOfRoot n = some Leaf.biasFused := hx
      have hf2 := (himp hleaf).2
      rw [hf2] at hnull
      exact Bool.noConfusion hnull

/-- C9: every successful conversion returns a node list holding exactly one
node (the concatenation on the decomposition path, the single primitive
call on every `g == 1` path) — never `g` separate per-group nodes. -/
theorem c9_success_returns_single_node (node : QNode) (ns : List GNode)
    (h : quant_conv node = Except.ok ns) : ns.length = 1 := by
  rcases quant_conv_cases node with ⟨e, he, _⟩ | ⟨n, he, _, _⟩
  · rw [he] at h
    cases h
  · rw [he] at h
    have : ns = [n] := (Except.ok.inj h).symm
    rw [this]
    rfl

/-- C10: for every conversion, the data-dilation sequence handed to every
emitted primitive call (fast path, bias-fused, plain, and each per-group
call) is the all-ones sequence of the kernel shape's rank; it is never read
from an operator attribute, so for all attribute values the emitted
primitives receive exactly `replicate (rank kernel_shape) 1`. -/
theorem c10_data_dilations_all_ones (node : QNode) (ns : List GNode)
    (h : quant_conv node = Except.ok ns) :
    ∀ n ∈ ns, ∀ c ∈ emittedPrimitives n,
      dataDilationArg c = some (List.replicate node.kernel_shape.length 1) := by
  rcases quant_conv_cases node with ⟨e, he, _⟩ | ⟨n, he, hd, _⟩
  · rw [he] at h
    cases h
  · rw [he] at h
    have : ns = [n] := (Except.ok.inj h).symm
    rw [this]
    intro m hm
    rw [List.mem_singleton.mp hm]
    exact hd

/-- Input for the C8 witness: 9 inputs whose 9th is a null placeholder. -/
def exampleC8 : QNode :=
  { inputs := [GNode.tensor 0 [1, 4, 5, 5] ElemType.u8 false,
               GNode.tensor 1 [] ElemType.f32 false,
               GNode.tensor 2 [] ElemType.u8 false,
               GNode.tensor 3 [4, 2, 3, 3] ElemType.i8 false,
               GNode.tensor 4 [] ElemType.f32 false,
               GNode.tensor 5 [] ElemType.i8 false,
               GNode.tensor 6 [] ElemType.f32 false,
               GNode.tensor 7 [] ElemType.u8 false,
               GNode.tensor 8 [] ElemType.other true],
    group_attr := some 2, strides := [1, 1], dilations := [1, 1],
    kernel_shape := [3, 3], padding_below := [0, 0], padding_above := [0, 0] }

/-- C8 (witness): the null-bias equivalence at a concrete 9-input operator. -/
theorem c8_null_bias_equals_no_bias_witness :
    quant_conv exampleC8 =
      quant_conv { exampleC8 with inputs := exampleC8.inputs.take 8 } ∧
    quant_conv exampleC8 ≠ Except.error QCError.notSupportedBiasWithGroups ∧
    executedLeaf (quant_conv exampleC8) ≠ some Leaf.biasFused :=
  c8_null_bias_equals_no_bias exampleC8 (by decide) (by decide)

/-- Input for the C9 witness: a plain `g = 1`, no-bias conversion. -/
def exampleC9 : QNode :=
  { inputs := [GNode.tensor 0 [1, 4, 5, 5] ElemType.u8 false,
               GNode.tensor 1 [] ElemType.f32 false,
               GNode.tensor 2 [] ElemType.u8 false,
               GNode.tensor 3 [4, 4, 3, 3] ElemType.i8 false,
               GNode.tensor 4 [] ElemType.f32 false,
               GNode.tensor 5 [] ElemType.i8 false,
               GNode.tensor 6 [] ElemType.f32 false,
               GNode.tensor 7 [] ElemType.u8 false],
    group_attr := none, strides := [1, 1], dilations := [1, 1],
    kernel_shape := [3, 3], padding_below := [0, 0], padding_above := [0, 0] }

/-- C9 (witness): a concrete successful conversion returns one node. -/
theorem c9_success_returns_single_node_witness :
    ∃ ns, quant_conv exampleC9 = Except.ok ns ∧ ns.length = 1 :=
  ⟨_, rfl, c9_success_returns_single_node exampleC9 _ rfl⟩

/-- Input for the C10 witness: a grouped (`g = 2`) no-bias conversion, so
that the all-ones data dilation is checked on each per-group call. -/
def exampleC10 : QNode :=
  { inputs := [GNode.tensor 0 [1, 4, 5, 5] ElemType.u8 false,
               GNode.tensor 1 [] ElemType.f32 false,
               GNode.tensor 2 [] ElemType.u8 false,
               GNode.tensor 3 [4, 2, 3, 3] ElemType.i8 false,
               GNode.tensor 4 [] ElemType.f32 false,
               GNode.tensor 5 [] ElemType.i8 false,
               GNode.tensor 6 [] ElemType.f32 false,
               GNode.tensor 7 [] ElemType.u8 false],
    group_attr := some 2, strides := [2, 2], dilations := [2, 2],
    kernel_shape := [3, 3], padding_below := [1, 1], padding_above := [1, 1] }

/-- C10 (witness): every primitive emitted for a concrete grouped input
received the all-ones data-dilation sequence of the kernel's rank. -/
theorem c10_data_dilations_all_ones_witness :
    ∃ ns, quant_conv exampleC10 = Except.ok ns ∧
      ∀ n ∈ ns, ∀ c ∈ emittedPrimitives n,
        dataDilationArg c =
          some (List.replicate exampleC10.kernel_shape.length 1) :=
  ⟨_, rfl, c10_data_dilations_all_ones exampleC10 _ rfl⟩

end QuantConvSpec
